import Mathlib

/-!
Verification of the `resolv-data` acquisition-and-indexing pipeline.

This file shallowly embeds the core of `resolv_data/utilities.py` and
`resolv_data/base.py`:

* a filesystem model (`FS`) on which `download`, `extract_archive`,
  `move_content`, `compute_checksum`, `validate_checksum`,
  `DirectoryDataset.download` and `DirectoryDataset.compute_index` act;
* an environment (`Ctx`) packaging the external collaborators the Python code
  calls out to (HTTP transport, hash functions, archive codecs, the home and
  temp directories);
* theorems settling the behavioural claims about that code.

Paths are lists of name components.  File contents are byte lists.  Each
definition mirrors the Python source line by line; Python exceptions become
constructors of `DlError`, and every operation returns the filesystem state it
leaves behind, so effects that happen before an exception is raised are
preserved, exactly as in Python.
-/

namespace ResolvData

/-- A byte string (file contents). -/
abbrev Bytes := List Nat

/-- A filesystem path, as its list of name components. -/
abbrev FPath := List String

/-- A filesystem node: a regular file with contents, or a directory. -/
inductive Node where
  | file (content : Bytes)
  | dir
deriving DecidableEq, Repr

/-- A filesystem: an association list from paths to nodes.  Lookup takes the
first binding, and every mutating operation removes the old binding first, so
the head binding for a path is the current one. -/
abbrev FS := List (FPath × Node)

namespace FS

/-- Look up the node at a path. -/
def find (fs : FS) (p : FPath) : Option Node :=
  (List.find? (fun e => decide (e.1 = p)) fs).map (·.2)

/-- `os.path.exists`: does anything live at this path? -/
def existsP (fs : FS) (p : FPath) : Bool :=
  (fs.find p).isSome

/-- `Path.is_file`. -/
def isFileB (fs : FS) (p : FPath) : Bool :=
  match fs.find p with
  | some (Node.file _) => true
  | _ => false

/-- `Path.is_dir`. -/
def isDirB (fs : FS) (p : FPath) : Bool :=
  match fs.find p with
  | some Node.dir => true
  | _ => false

/-- Remove the binding at exactly `p` (`Path.unlink` / `Path.rmdir` effect). -/
def erase (fs : FS) (p : FPath) : FS :=
  fs.filter (fun e => decide (¬ e.1 = p))

/-- Remove `p` and everything below it (`shutil.rmtree(ignore_errors=True)`). -/
def eraseTree (fs : FS) (p : FPath) : FS :=
  fs.filter (fun e => decide (¬ p.isPrefixOf e.1))

/-- Create or truncate the regular file at `p` (`open(p, "wb")` + write). -/
def write (fs : FS) (p : FPath) (c : Bytes) : FS :=
  (p, Node.file c) :: fs.erase p

/-- Record a node at `p`, replacing any previous binding. -/
def writeNode (fs : FS) (p : FPath) (n : Node) : FS :=
  (p, n) :: fs.erase p

/-- All nonempty proper-or-improper prefixes of a path, shortest first. -/
def ancestors (p : FPath) : List FPath :=
  (List.range p.length).map (fun i => p.take (i + 1))

/-- `Path.mkdir(parents=True, exist_ok=True)`: create the directory at `p` and
every missing ancestor. -/
def mkdirp (fs : FS) (p : FPath) : FS :=
  (ancestors p).foldl (fun f q => if f.existsP q then f else (q, Node.dir) :: f) fs

/-- The immediate children of `p` that are present in the filesystem. -/
def children (fs : FS) (p : FPath) : List FPath :=
  (fs.filter (fun e => decide (e.1.length = p.length + 1 ∧ p.isPrefixOf e.1))).map (·.1)

/-- Move the subtree rooted at `src` to `dst` (`Path.rename`).  The model
assumes the destination is not already occupied, which holds at every call
site verified here. -/
def rename (fs : FS) (src dst : FPath) : FS :=
  fs.map (fun e => if src.isPrefixOf e.1 then (dst ++ e.1.drop src.length, e.2) else e)

end FS

/-- The error kinds the embedded code can raise.  Each constructor names the
spec-level error; the comment gives the Python exception it stands for. -/
inductive DlError where
  /-- `RuntimeError` from a failed checksum validation. -/
  | checksumMismatch
  /-- `requests` raising on a non-success status or connection failure. -/
  | transferError
  /-- `ValueError` from `extract_archive` on an unknown archive kind. -/
  | unsupportedFormat
  /-- `ValueError` from `DirectoryDataset.download` when the number of main
  sources differs from one. -/
  | invalidSourceSet
  /-- `ValueError` from `compute_checksum` on an unknown checksum type. -/
  | badChecksumType
  /-- `shutil`/codec failure reading a malformed archive. -/
  | readError
  /-- `NotADirectoryError` (e.g. `Path.iterdir` on a regular file). -/
  | notADirectory
  /-- `FileNotFoundError`. -/
  | fileNotFound
  /-- `IsADirectoryError` (e.g. `open` for reading on a directory). -/
  | isADirectory
  /-- `StopIteration` from `next()` on an empty iterator. -/
  | stopIteration
  /-- `OSError` from `Path.rmdir` on a non-empty directory. -/
  | dirNotEmpty
  /-- `TypeError` (e.g. `None / "index.json"` when `root_dir` is unset). -/
  | typeError
deriving DecidableEq, Repr

/-- The external collaborators of the pipeline: HTTP transport, hash
functions, archive codecs, and the fixed directories the code derives paths
from.  All are opaque parameters; the code under verification never inspects
their internals. -/
structure Ctx where
  /-- `requests.get`: `none` models a non-success status or connection error. -/
  http : String → Option Bytes
  /-- `hashlib.md5(...).digest()`. -/
  md5 : Bytes → Bytes
  /-- `hashlib.sha256(...).digest()`. -/
  sha256 : Bytes → Bytes
  /-- Decoding a zip/tar-family container into its member tree (relative
  paths); `none` models a malformed archive. -/
  archive : Bytes → Option (List (FPath × Node))
  /-- gzip decompression of a byte stream; `none` models a corrupt stream. -/
  gunzip : Bytes → Option Bytes
  /-- xz/lzma decompression of a byte stream; `none` models a corrupt stream. -/
  unxz : Bytes → Option Bytes
  /-- `Path.home()`. -/
  home : FPath
  /-- The directory in which `NamedTemporaryFile` allocates files. -/
  tempDir : FPath

/-- Lower-case hexadecimal digit for a value below 16. -/
def hexDigitChar (n : Nat) : Char :=
  if n < 10 then Char.ofNat (48 + n) else Char.ofNat (97 + (n - 10))

/-- The two lower-case hex digits of one byte. -/
def byteHex (b : Nat) : List Char :=
  [hexDigitChar ((b / 16) % 16), hexDigitChar (b % 16)]

/-- `hexdigest()`: lower-case hex rendering of a digest byte string. -/
def hexEncode (bs : Bytes) : String :=
  ⟨bs.foldr (fun b acc => byteHex b ++ acc) []⟩

/-- `utilities.compute_checksum` (utilities.py lines 93-123): select the hash
function by name — an unknown name is a `ValueError` — then hash the file's
contents and render the digest as a lower-case hex string.  Reading a missing
path or a directory fails as `open` would. -/
def compute_checksum (ctx : Ctx) (fs : FS) (file_path : FPath) (checksum_type : String) :
    Except DlError String :=
  if checksum_type = "md5" then
    match fs.find file_path with
    | some (Node.file c) => .ok (hexEncode (ctx.md5 c))
    | some Node.dir => .error .isADirectory
    | none => .error .fileNotFound
  else if checksum_type = "sha256" then
    match fs.find file_path with
    | some (Node.file c) => .ok (hexEncode (ctx.sha256 c))
    | some Node.dir => .error .isADirectory
    | none => .error .fileNotFound
  else .error .badChecksumType

/-- `utilities.validate_checksum` (utilities.py lines 126-144): compute the
file's digest and compare it to the expected one with Python `==`.  The
expected value is optional (`checksum=None` compares unequal to every
string, without error). -/
def validate_checksum (ctx : Ctx) (fs : FS) (file_path : FPath)
    (checksum : Option String) (checksum_type : String) : Except DlError Bool :=
  match compute_checksum ctx fs file_path checksum_type with
  | .error e => .error e
  | .ok d => .ok (decide (checksum = some d))

/-- The mutable state a fetch or acquisition run threads through: the
filesystem, the counter `NamedTemporaryFile` draws fresh names from, the log
of URLs passed to `requests.get` (the fetch-call counter of the spec), and
the Dataset Instance's `_root_dir` field. -/
structure St where
  fs : FS
  tmpCtr : Nat
  fetched : List String
  root_dir : Option FPath
deriving DecidableEq, Repr

/-- The arguments of `utilities.download` that bear on its semantics
(`stream`, `chunk_size` and `temp_suffix` only affect buffering and temp-file
naming). -/
structure DlArgs where
  url : String
  output_file_path : Option FPath
  temp : Bool
  force_overwrite : Bool
  checksum : Option String
  checksum_type : String
  allow_invalid_checksum : Bool

/-- utilities.py lines 79-90: issue `requests.get` (logged as a fetch even
when it fails), raise `TransferError` on an HTTP failure, otherwise stream the
body into the already-opened output file and run post-transfer checksum
validation.  `p` is the path of the output file, which `open`/
`NamedTemporaryFile` has already created empty. -/
def dlTransfer (ctx : Ctx) (a : DlArgs) (st : St) (p : FPath) : St × Except DlError FPath :=
  let st1 : St := { st with fetched := st.fetched ++ [a.url] }
  match ctx.http a.url with
  | none => (st1, .error .transferError)
  | some content =>
    let st2 : St := { st1 with fs := st1.fs.write p content }
    if a.allow_invalid_checksum then (st2, .ok p)
    else
      match validate_checksum ctx st2.fs p a.checksum a.checksum_type with
      | .error e => (st2, .error e)
      | .ok true => (st2, .ok p)
      | .ok false => (st2, .error .checksumMismatch)

/-- utilities.py lines 67-69: create the target's parent directories, then
`open(output_file_path, mode='wb')` — which creates or truncates the file at
the final path — and proceed to the transfer. -/
def dlOpenAndFetch (ctx : Ctx) (a : DlArgs) (st : St) (p : FPath) : St × Except DlError FPath :=
  dlTransfer ctx a { st with fs := (st.fs.mkdirp p.dropLast).write p [] } p

/-- utilities.py lines 71-73: allocate a fresh `NamedTemporaryFile`
(`delete=False` — the empty file is created on disk immediately) and proceed
to the transfer. -/
def dlTempFetch (ctx : Ctx) (a : DlArgs) (st : St) : St × Except DlError FPath :=
  let p : FPath := ctx.tempDir ++ ["tmp" ++ toString st.tmpCtr]
  dlTransfer ctx a { st with fs := st.fs.write p [], tmpCtr := st.tmpCtr + 1 } p

/-- `utilities.download` (utilities.py lines 17-90).  Non-temp with a target
path: an existing target is either deleted (`force_overwrite`) or
short-circuits the fetch after an optional checksum validation of the existing
file; otherwise the target is opened for writing and the transfer streamed
into it.  Temp mode, or a missing target path, downloads to a fresh temporary
file.  Returns the resolved path of the downloaded file. -/
def download (ctx : Ctx) (st : St) (a : DlArgs) : St × Except DlError FPath :=
  if a.temp then dlTempFetch ctx a st
  else
    match a.output_file_path with
    | none => dlTempFetch ctx a st
    | some p =>
      if st.fs.existsP p then
        if a.force_overwrite then
          -- line 59-60: unlink a file, rmtree a directory, then re-open.
          let fs' := if st.fs.isFileB p then st.fs.erase p else st.fs.eraseTree p
          dlOpenAndFetch ctx a { st with fs := fs' } p
        else
          -- lines 62-66: validate the existing file, then skip the download.
          if a.allow_invalid_checksum then (st, .ok p)
          else
            match validate_checksum ctx st.fs p a.checksum a.checksum_type with
            | .error e => (st, .error e)
            | .ok true => (st, .ok p)
            | .ok false => (st, .error .checksumMismatch)
      else dlOpenAndFetch ctx a st p

/-- utilities.py line 14: the supported archive-suffix table, in source
order. -/
def _SUPPORTED_ARCHIVES : List String :=
  [".zip", ".tar", ".tar.gz", ".tgz", ".tar.xz", ".txz", ".tbz", ".tar.bz", ".xz", ".gz"]

/-- Python `str.endswith`: does `s` end with `suffix`, character-wise? -/
def strEndsWith (s suffix : String) : Bool :=
  suffix.data.isSuffixOf s.data

/-- utilities.py lines 170-174 (`_infer_archive_type`): the first supported
suffix the path string ends with, if any. -/
def _infer_archive_type (s : String) : Option String :=
  _SUPPORTED_ARCHIVES.find? (fun ext => strEndsWith s ext)

/-- `str(path)`: render a path for suffix matching. -/
def pathStr (p : FPath) : String :=
  "/" ++ String.intercalate "/" p

/-- The final name component of a path. -/
def lastName (p : FPath) : String :=
  p.getLastD ""

/-- `Path.stem`: the final component without its last suffix.  A name whose
only dot is the leading one has no suffix. -/
def pyStem (name : String) : String :=
  let parts := name.splitOn "."
  match parts with
  | [] => name
  | [_] => name
  | _ =>
    if parts.headD "" = "" ∧ parts.length = 2 then name
    else String.intercalate "." parts.dropLast

/-- `Path.iterdir`: the immediate children of a directory; a regular file or
a missing path raises. -/
def FS.iterdir (fs : FS) (p : FPath) : Except DlError (List FPath) :=
  match fs.find p with
  | some Node.dir => .ok (fs.children p)
  | some (Node.file _) => .error .notADirectory
  | none => .error .fileNotFound

/-- `utilities.move_content` (utilities.py lines 207-221): rename every
immediate child of `source_dir` to the same name under `destination_dir`,
then — when `delete_src` — remove the (now empty) source directory with
`rmdir`.  `iterdir` on a non-directory raises, exactly as in Python. -/
def move_content (fs : FS) (source_dir destination_dir : FPath) (delete_src : Bool) :
    FS × Except DlError Unit :=
  match fs.iterdir source_dir with
  | .error e => (fs, .error e)
  | .ok items =>
    let fs1 := items.foldl
      (fun f item => f.rename item (destination_dir ++ [lastName item])) fs
    if delete_src then
      if (fs1.children source_dir).isEmpty then (fs1.erase source_dir, .ok ())
      else (fs1, .error .dirNotEmpty)
    else (fs1, .ok ())

/-- utilities.py line 181: the archive kinds handled by
`shutil.unpack_archive`, in source order. -/
def containerKinds : List String :=
  [".zip", ".tar", ".tgz", ".tar.gz", ".txz", ".tar.xz", ".tbz", ".tar.bz"]

/-- `shutil.unpack_archive`: create the output directory and write every
member of the decoded archive below it. -/
def unpackInto (fs : FS) (out : FPath) (entries : List (FPath × Node)) : FS :=
  entries.foldl (fun f e => f.writeNode (out ++ e.1) e.2) (fs.mkdirp out)

/-- utilities.py lines 181-191: the kind dispatch of `extract_archive`.
Container kinds (the zip/tar family, matched as Python tuple membership)
unpack the archive file wholesale into `out`; the single-stream kinds
preserve the source's bug verbatim: both `gzip.open(...)` and
`lzma.open(...)` are given `output_path`, not `archive_path` (utilities.py
lines 185, 188), so a missing output path raises `FileNotFoundError`, and an
existing one is truncated by the write-mode `open` before its first read,
leaving the decompressor an empty stream.  An unknown or uninferred kind
raises the unsupported-format `ValueError`. -/
def extractDecompress (ctx : Ctx) (fs : FS) (archive_path out : FPath) :
    Option String → FS × Except DlError Unit
  | some ke =>
    if containerKinds.contains ke then
      match fs.find archive_path with
      | some (Node.file c) =>
        match ctx.archive c with
        | some entries => (unpackInto fs out entries, .ok ())
        | none => (fs, .error .readError)
      | some Node.dir => (fs, .error .isADirectory)
      | none => (fs, .error .fileNotFound)
    else if ke == ".gz" || ke == ".xz" then
      match fs.find out with
      | some (Node.file _) =>
        let fs1 := fs.write out []
        match (if ke == ".gz" then ctx.gunzip [] else ctx.unxz []) with
        | some d => (fs1.write out d, .ok ())
        | none => (fs1, .error .readError)
      | some Node.dir => (fs, .error .isADirectory)
      | none => (fs, .error .fileNotFound)
    else (fs, .error .unsupportedFormat)
  | none => (fs, .error .unsupportedFormat)

/-- utilities.py lines 195-197: `cleanup` removes the source archive with
`os.remove` after successful extraction. -/
def extractCleanup (fs : FS) (archive_path : FPath) (cleanup : Bool) :
    FS × Except DlError Unit :=
  if cleanup then
    match fs.find archive_path with
    | some (Node.file _) => (fs.erase archive_path, .ok ())
    | some Node.dir => (fs, .error .isADirectory)
    | none => (fs, .error .fileNotFound)
  else (fs, .ok ())

/-- utilities.py lines 199-202: `move_root_dir` takes the first entry of the
output directory (`next(output_path.iterdir())`) as the wrapping root and
moves its contents up with `move_content(..., delete_src=True)`. -/
def extractFlatten (fs : FS) (out : FPath) (move_root_dir : Bool) :
    FS × Except DlError Unit :=
  if move_root_dir then
    match fs.iterdir out with
    | .error e => (fs, .error e)
    | .ok [] => (fs, .error .stopIteration)
    | .ok (archive_root :: _) => move_content fs archive_root out true
  else (fs, .ok ())

/-- `utilities.extract_archive` (utilities.py lines 147-204).  The output
path defaults to a sibling directory named by the archive's stem; the kind is
inferred from the filename suffix when not given.  Decompression, archive
cleanup and root flattening run in that order, each skipped if a previous
stage raised. -/
def extract_archive (ctx : Ctx) (fs : FS) (archive_path : FPath)
    (output_path : Option FPath := none) (move_root_dir : Bool := true)
    (kind : Option String := none) (cleanup : Bool := false) :
    FS × Except DlError FPath :=
  let out := output_path.getD (archive_path.dropLast ++ [pyStem (lastName archive_path)])
  let k := match kind with
    | none => _infer_archive_type (pathStr archive_path)
    | some s => some s
  match extractDecompress ctx fs archive_path out k with
  | (fs1, .error e) => (fs1, .error e)
  | (fs1, .ok _) =>
    match extractCleanup fs1 archive_path cleanup with
    | (fs2, .error e) => (fs2, .error e)
    | (fs2, .ok _) =>
      match extractFlatten fs2 out move_root_dir with
      | (fs3, .error e) => (fs3, .error e)
      | (fs3, .ok _) => (fs3, .ok out)

/-- `resolv_data.base.RemoteSource` (base.py lines 27-43). -/
structure RemoteSource where
  filename : String
  url : String
  checksum : Option String
  checksum_type : String
  main_source : Bool := false
  archive : Bool := false
  has_archived_root : Bool := false
deriving DecidableEq, Repr

/-- A `DirectoryDataset` instance bound to one mode: the fields of `info` and
the declared source list that `DirectoryDataset.download` reads.  `sources`
stands for `remote_sources()[mode]` for the bound mode (the constructor has
already validated the mode against the declared mode set). -/
structure Dataset where
  name : String
  version : String
  mode : String
  sources : List RemoteSource
deriving DecidableEq, Repr

/-- Python `str.replace(" ", "_")`: substitute every space character. -/
def underscoreSpaces (s : String) : String :=
  ⟨s.data.map (fun ch => if ch = ' ' then '_' else ch)⟩

/-- Python `str.lower`, character-wise. -/
def strLower (s : String) : String :=
  ⟨s.data.map Char.toLower⟩

/-- `DirectoryDataset.root_dir_name` (base.py lines 103-106):
`<name with spaces underscored, lower-cased>-v<version>-<mode>`. -/
def root_dir_name (ds : Dataset) : String :=
  strLower (underscoreSpaces ds.name) ++ "-v" ++ ds.version ++ "-" ++ ds.mode

/-- The options of `DirectoryDataset.download` (base.py line 122). -/
structure DlOpts where
  output_path : Option FPath := none
  temp : Bool := false
  overwrite : Bool := false
  cleanup : Bool := true
  allow_invalid_checksum : Bool := false
deriving DecidableEq, Repr

/-- `DirectoryDataset._default_path` (base.py lines 219-226):
`Path.home() / ".resolv" / "datasets"`. -/
def default_path (ctx : Ctx) : FPath :=
  ctx.home ++ [".resolv", "datasets"]

/-- The per-source loop of `DirectoryDataset.download` (base.py lines
181-215), over the already-sorted source list.  Each iteration resolves the
fetch target (the main source under the base output path or a temp file; any
other source under the established root directory), calls
`utilities.download`, then either extracts an archive source or — for a
non-archive main source — moves the downloaded content into the computed root
directory path, and finally records the main source's resulting path as the
instance's `_root_dir` (base.py lines 213-215, which for a non-archive main
source is still the pre-move download path). -/
def processSources (ctx : Ctx) (ds : Dataset) (opts : DlOpts) (base : Option FPath) :
    List RemoteSource → St → St × Except DlError Unit
  | [], st => (st, .ok ())
  | s :: rest, st =>
    let srcOut : Except DlError (Option FPath) :=
      if s.main_source then
        .ok (if opts.temp then none else some ((base.getD []) ++ [s.filename]))
      else
        match st.root_dir with
        | some r => .ok (some (r ++ [s.filename]))
        | none => .error .typeError
    match srcOut with
    | .error e => (st, .error e)
    | .ok srcOutPath =>
      match download ctx st
        { url := s.url
          output_file_path := srcOutPath
          temp := opts.temp && s.main_source
          force_overwrite := opts.overwrite
          checksum := s.checksum
          checksum_type := s.checksum_type
          allow_invalid_checksum := opts.allow_invalid_checksum } with
      | (st1, .error e) => (st1, .error e)
      | (st1, .ok dlPath) =>
        if s.archive then
          let extName := if s.main_source then root_dir_name ds
                         else (s.filename.splitOn ".").headD ""
          match extract_archive ctx st1.fs dlPath
              (some (dlPath.dropLast ++ [extName])) s.has_archived_root none opts.cleanup with
          | (fs2, .error e) => ({ st1 with fs := fs2 }, .error e)
          | (fs2, .ok exPath) =>
            processSources ctx ds opts base rest
              { st1 with fs := fs2
                         root_dir := if s.main_source then some exPath else st1.root_dir }
        else if s.main_source then
          let rootPath := dlPath.dropLast ++ [root_dir_name ds]
          match move_content st1.fs dlPath rootPath true with
          | (fs2, .error e) => ({ st1 with fs := fs2 }, .error e)
          | (fs2, .ok _) =>
            processSources ctx ds opts base rest
              { st1 with fs := fs2, root_dir := some dlPath }
        else
          processSources ctx ds opts base rest st1

/-- `DirectoryDataset.download` (base.py lines 122-217).  Non-temp mode first
resolves the base output path and, when the computed root directory already
exists, either deletes it (`overwrite`) or sets `_root_dir` to it and returns
at once.  It then requires exactly one declared main source, processes the
sources main-first (a stable sort on `main_source` descending), and returns
the instance's `_root_dir`. -/
def datasetDownload (ctx : Ctx) (ds : Dataset) (opts : DlOpts) (st : St) :
    St × Except DlError (Option FPath) :=
  let go : Option FPath → St → St × Except DlError (Option FPath) := fun base st =>
    let main_sources_count := ds.sources.countP (fun s => s.main_source)
    if main_sources_count ≠ 1 then (st, .error .invalidSourceSet)
    else
      let sorted := ds.sources.filter (fun s => s.main_source)
        ++ ds.sources.filter (fun s => ¬ s.main_source)
      match processSources ctx ds opts base sorted st with
      | (st', .error e) => (st', .error e)
      | (st', .ok _) => (st', .ok st'.root_dir)
  if opts.temp then go none st
  else
    let base := opts.output_path.getD (default_path ctx)
    let root_dir_path := base ++ [root_dir_name ds]
    if st.fs.isDirB root_dir_path then
      if opts.overwrite then go (some base) { st with fs := st.fs.eraseTree root_dir_path }
      else ({ st with root_dir := some root_dir_path }, .ok (some root_dir_path))
    else go (some base) st

/-- Observable events of `DirectoryDataset.compute_index`. -/
inductive Ev where
  | builderCall
  | wroteIndex
deriving DecidableEq, Repr

/-- `DirectoryDataset.compute_index` (base.py lines 108-120): first invoke
the dataset-specific builder `_compute_index_internal` (line 116,
unconditionally), then serialize its result to `root_dir / "index.json"` —
which, when `_root_dir` is still unset, raises a `TypeError` from
`None / "index.json"` without writing anything.  `builderOutput` stands for
the serialized index the builder produced; the returned event list records
the order of observable actions. -/
def compute_index (fs : FS) (root_dir : Option FPath) (builderOutput : Bytes) :
    List Ev × Except DlError FS :=
  match root_dir with
  | none => ([Ev.builderCall], .error .typeError)
  | some r => ([Ev.builderCall, Ev.wroteIndex], .ok (fs.write (r ++ ["index.json"]) builderOutput))

/-! ## Concrete fixtures

Closed environments, datasets and states used to evaluate the model at
specific inputs. -/

/-- A concrete environment: the URL `"u"` serves the bytes `[1, 2, 3]`, every
other URL fails; both hash functions digest everything to the byte `0xab`;
the container codec decodes any archive to a single wrapping directory
`wrapper/` holding `a.txt`; gzip decompresses exactly the bytes `[1, 2, 3]`. -/
def ctxC : Ctx where
  http := fun u => if u = "u" then some [1, 2, 3] else none
  md5 := fun _ => [171]
  sha256 := fun _ => [171]
  archive := fun _ => some [(["wrapper"], Node.dir), (["wrapper", "a.txt"], Node.file [9])]
  gunzip := fun c => if c = [1, 2, 3] then some [7, 7] else none
  unxz := fun _ => none
  home := ["home"]
  tempDir := ["tmp"]

/-- The pristine run state: empty filesystem, no fetches, `_root_dir` unset. -/
def st0 : St := { fs := [], tmpCtr := 0, fetched := [], root_dir := none }

/-- A dataset mode whose single source is main and *not* an archive. -/
def dsMainFile : Dataset where
  name := "Ds X"
  version := "1"
  mode := "full"
  sources := [{ filename := "f.txt", url := "u", checksum := none, checksum_type := "sha256",
                main_source := true, archive := false, has_archived_root := false }]

/-- The same dataset identity with a source list containing *zero* main
sources. -/
def dsNoMain : Dataset where
  name := "Ds X"
  version := "1"
  mode := "full"
  sources := [{ filename := "f.txt", url := "u", checksum := none, checksum_type := "sha256" }]

/-- Run options: explicit output path `/o`, checksum validation disabled. -/
def optsAllow : DlOpts where
  output_path := some ["o"]
  temp := false
  overwrite := false
  cleanup := true
  allow_invalid_checksum := true

/-- A state in which the computed root directory `/o/ds_x-v1-full` already
exists. -/
def stDir : St := { st0 with fs := [(["o", "ds_x-v1-full"], Node.dir)] }

/-- A filesystem holding one gzip archive `/a/f.gz` whose bytes `ctxC.gunzip`
decompresses successfully. -/
def fs6 : FS := [(["a", "f.gz"], Node.file [1, 2, 3])]

/-- A filesystem holding one file `/f` (its digest under `ctxC` is `0xab`,
hex `"ab"`). -/
def fs5 : FS := [(["f"], Node.file [5])]

/-- An environment whose container codec decodes every archive into one
top-level directory `wrapper/` containing `a.txt` with contents `c`. -/
def ctx7 (c : Bytes) : Ctx where
  http := fun _ => none
  md5 := fun b => b
  sha256 := fun b => b
  archive := fun _ => some [(["wrapper"], Node.dir), (["wrapper", "a.txt"], Node.file c)]
  gunzip := fun _ => none
  unxz := fun _ => none
  home := []
  tempDir := []

/-! ## Supporting lemmas -/

theorem FS.find_write_self (fs : FS) (p : FPath) (c : Bytes) :
    (fs.write p c).find p = some (Node.file c) := by
  simp [FS.write, FS.find]

/-- After `dlTransfer` on a successful HTTP response, the fetched content
sits at the resolved path. -/
theorem dlTransfer_http_none (ctx : Ctx) (a : DlArgs) (st : St) (p : FPath)
    (hH : ctx.http a.url = none) :
    dlTransfer ctx a st p = ({ st with fetched := st.fetched ++ [a.url] }, .error .transferError) := by
  simp [dlTransfer, hH]

/-- A transfer that succeeds but carries no expected checksum (and no
override) always ends in the checksum-mismatch error: the fresh file's hex
digest is compared against `none`. -/
theorem dlTransfer_missing_checksum (ctx : Ctx) (a : DlArgs) (st : St) (p : FPath)
    (hA : a.allow_invalid_checksum = false) (hC : a.checksum = none)
    (hT : a.checksum_type = "sha256" ∨ a.checksum_type = "md5")
    (c : Bytes) (hH : ctx.http a.url = some c) :
    (dlTransfer ctx a st p).2 = .error .checksumMismatch := by
  rcases hT with h | h <;>
    simp [dlTransfer, hH, hA, hC, validate_checksum, compute_checksum, h, FS.find_write_self]

theorem move_content_no_unsupported (fs : FS) (src dst : FPath) (d : Bool) :
    (move_content fs src dst d).2 ≠ .error .unsupportedFormat := by
  unfold move_content FS.iterdir
  rcases hf : fs.find src with - | n
  · simp [hf]
  · cases n with
    | file c => simp [hf]
    | dir =>
      simp only [hf]
      repeat' split <;> simp

theorem extractCleanup_no_unsupported (fs : FS) (ap : FPath) (c : Bool) :
    (extractCleanup fs ap c).2 ≠ .error .unsupportedFormat := by
  unfold extractCleanup
  repeat' split <;> simp_all

theorem extractFlatten_no_unsupported (fs : FS) (out : FPath) (m : Bool) :
    (extractFlatten fs out m).2 ≠ .error .unsupportedFormat := by
  unfold extractFlatten FS.iterdir
  split
  · rcases hf : fs.find out with - | n
    · simp [hf]
    · cases n with
      | file c => simp [hf]
      | dir =>
        simp only [hf]
        rcases hc : fs.children out with - | ⟨r, rest⟩
        · simp [hc]
        · simpa [hc] using move_content_no_unsupported fs r out true
  · simp

/-- Every kind in the supported table is dispatched to a real extraction
branch, never to the unsupported-kind error. -/
theorem extractDecompress_no_unsupported (ctx : Ctx) (fs : FS) (ap out : FPath) (ke : String)
    (h : ke ∈ _SUPPORTED_ARCHIVES) :
    (extractDecompress ctx fs ap out (some ke)).2 ≠ .error .unsupportedFormat := by
  fin_cases h <;>
    simp only [extractDecompress] <;>
    first
      | (rw [if_pos (by decide)]; repeat' split <;> simp)
      | (rw [if_neg (by decide), if_pos (by decide)]; repeat' split <;> simp)

/-! ## Claims -/

/-- **C1.** The claim: for a dataset-mode whose main source is not an
archive, `download` relocates the fetched file's content into the computed
root-directory path and then sets the instance's root directory to that
resulting path.  The code instead passes the downloaded *file* path to
`move_content`, whose `iterdir` raises `NotADirectoryError`, so acquisition
of a non-archive main source always fails and `_root_dir` is never set; had
the move succeeded, base.py line 215 would still have set `_root_dir` to the
pre-move download path (deleted by `delete_src=True`), not to the computed
root-directory path.  Evaluated here on a one-main-source non-archive mode
with a successful fetch. -/
theorem C1_nonarchive_main_source_crashes :
    (datasetDownload ctxC dsMainFile optsAllow st0).2 = .error .notADirectory ∧
    (datasetDownload ctxC dsMainFile optsAllow st0).1.root_dir = none ∧
    ctxC.http "u" = some [1, 2, 3] :=
  ⟨rfl, rfl, rfl⟩

/-- **C6.** The claim: for a single-stream `.gz`/`.xz` source, `extract`
decompresses the archive file's stream and leaves the result at
`outputPath`.  The code opens `output_path` instead of `archive_path` for
reading (utilities.py line 185), so with the archive present at `/a/f.gz`
(and perfectly decompressible) and a fresh output path `/a/out`, extraction
fails with `FileNotFoundError` — the archive's own bytes are never read. -/
theorem C6_gz_branch_reads_output_path :
    (extract_archive ctxC fs6 ["a", "f.gz"] (some ["a", "out"]) false none false).2
        = .error .fileNotFound ∧
    fs6.find ["a", "f.gz"] = some (Node.file [1, 2, 3]) ∧
    ctxC.gunzip [1, 2, 3] = some [7, 7] :=
  ⟨rfl, rfl, rfl⟩

/-- **C7.** Extraction with `flattenRoot = true` of an archive whose single
top-level entry is `wrapper/` containing `a.txt` (with any contents `c`)
yields `outputPath/a.txt`, not `outputPath/wrapper/a.txt`, and the wrapper
directory is removed. -/
theorem C7_flatten_root_moves_wrapper_contents_up (c : Bytes) :
    ((extract_archive (ctx7 c) [(["a", "f.zip"], Node.file [0])] ["a", "f.zip"]
        (some ["a", "out"]) true none false).2 = .ok ["a", "out"]) ∧
    ((extract_archive (ctx7 c) [(["a", "f.zip"], Node.file [0])] ["a", "f.zip"]
        (some ["a", "out"]) true none false).1.find ["a", "out", "a.txt"]
        = some (Node.file c)) ∧
    ((extract_archive (ctx7 c) [(["a", "f.zip"], Node.file [0])] ["a", "f.zip"]
        (some ["a", "out"]) true none false).1.find ["a", "out", "wrapper"] = none) ∧
    ((extract_archive (ctx7 c) [(["a", "f.zip"], Node.file [0])] ["a", "f.zip"]
        (some ["a", "out"]) true none false).1.find ["a", "out", "wrapper", "a.txt"] = none) :=
  ⟨rfl, rfl, rfl, rfl⟩

/-- **C2, counterexample.** The claim: a failed HTTP transfer raises
`TransferError` *and leaves no file at the intended final target path*.
utilities.py line 69 opens the target with `open(output_file_path, 'wb')` —
creating it — before the request is issued (line 81), so when the transfer
for the unreachable URL `"bad"` fails, an empty file remains at `/o/f`. -/
theorem C2_failed_transfer_leaves_empty_file :
    (download ctxC st0
      { url := "bad", output_file_path := some ["o", "f"], temp := false,
        force_overwrite := false, checksum := none, checksum_type := "sha256",
        allow_invalid_checksum := true }).2 = .error .transferError ∧
    (download ctxC st0
      { url := "bad", output_file_path := some ["o", "f"], temp := false,
        force_overwrite := false, checksum := none, checksum_type := "sha256",
        allow_invalid_checksum := true }).1.fs.find ["o", "f"] = some (Node.file []) ∧
    st0.fs.find ["o", "f"] = none :=
  ⟨rfl, rfl, rfl⟩

/-- **C2, amended.** A failed HTTP transfer (non-success status or connection
error) raises `TransferError`, but an empty file is left at the intended
final target path: the code creates/truncates the target before issuing the
request, so an errored fetch must be treated as "no usable file produced"
rather than "no file present".  Stated for every non-temp call with a target
path that reaches the transfer (target absent, or `force_overwrite` set). -/
theorem C2_amended_failed_transfer_error_and_empty_target
    (ctx : Ctx) (st : St) (a : DlArgs) (p : FPath)
    (hT : a.temp = false) (hP : a.output_file_path = some p)
    (hH : ctx.http a.url = none)
    (hReach : st.fs.existsP p = false ∨ a.force_overwrite = true) :
    (download ctx st a).2 = .error .transferError ∧
    (download ctx st a).1.fs.find p = some (Node.file []) ∧
    (download ctx st a).1.fetched = st.fetched ++ [a.url] := by
  rcases hReach with hE | hF
  · simp [download, hT, hP, hE, dlOpenAndFetch, dlTransfer_http_none ctx a _ p hH,
      FS.find_write_self]
  · by_cases hE : st.fs.existsP p
    · simp [download, hT, hP, hE, hF, dlOpenAndFetch, dlTransfer_http_none ctx a _ p hH,
        FS.find_write_self]
    · simp [download, hT, hP, hE, dlOpenAndFetch, dlTransfer_http_none ctx a _ p hH,
        FS.find_write_self]

/-- Witness for `C2_amended_failed_transfer_error_and_empty_target` at the
concrete fixture input. -/
theorem C2_amended_witness :
    (download ctxC st0
      { url := "bad", output_file_path := some ["x"], temp := false,
        force_overwrite := false, checksum := none, checksum_type := "sha256",
        allow_invalid_checksum := false }).2 = .error .transferError ∧
    (download ctxC st0
      { url := "bad", output_file_path := some ["x"], temp := false,
        force_overwrite := false, checksum := none, checksum_type := "sha256",
        allow_invalid_checksum := false }).1.fs.find ["x"] = some (Node.file []) ∧
    (download ctxC st0
      { url := "bad", output_file_path := some ["x"], temp := false,
        force_overwrite := false, checksum := none, checksum_type := "sha256",
        allow_invalid_checksum := false }).1.fetched = st0.fetched ++ ["bad"] :=
  C2_amended_failed_transfer_error_and_empty_target ctxC st0 _ ["x"] rfl rfl rfl (Or.inl rfl)

/-- **C3, counterexample.** The claim: a source list with zero (or several)
main sources *always* fails with `InvalidSourceSet` before any side effect,
for every combination of run options including `overwrite = true` on an
existing root directory.  With the root directory already present: under
`overwrite = false` the call returns *successfully* (the idempotent
short-circuit runs before source-set validation, so no error is raised at
all), and under `overwrite = true` the existing root directory is recursively
deleted *before* the validation error — a filesystem side effect precedes
`InvalidSourceSet`.  Fetch-call counts are zero in both runs. -/
theorem C3_validation_after_shortcircuit_and_rmtree :
    (datasetDownload ctxC dsNoMain optsAllow stDir).2 = .ok (some ["o", "ds_x-v1-full"]) ∧
    (datasetDownload ctxC dsNoMain optsAllow stDir).1.fetched = [] ∧
    (datasetDownload ctxC dsNoMain { optsAllow with overwrite := true } stDir).2
        = .error .invalidSourceSet ∧
    (datasetDownload ctxC dsNoMain { optsAllow with overwrite := true } stDir).1.fetched = [] ∧
    stDir.fs.find ["o", "ds_x-v1-full"] = some Node.dir ∧
    (datasetDownload ctxC dsNoMain { optsAllow with overwrite := true } stDir).1.fs.find
        ["o", "ds_x-v1-full"] = none :=
  ⟨rfl, rfl, rfl, rfl, rfl, rfl⟩

/-- **C3, amended.** A source list with zero or two-or-more main sources
fails acquisition with `InvalidSourceSet` before any fetch (the fetch log is
unchanged) in every run that does not hit the existing-root short-circuit —
i.e. whenever `temp` is set, or `overwrite` is set, or the computed root
directory does not already exist.  (When the root exists with
`overwrite = false` the call returns successfully without validating, and
when it exists with `overwrite = true` the recursive delete of the root
precedes the validation error, as the counterexample shows.) -/
theorem C3_amended_invalid_source_set_before_fetch
    (ctx : Ctx) (ds : Dataset) (opts : DlOpts) (st : St)
    (hM : ds.sources.countP (fun s => s.main_source) ≠ 1)
    (hNoSkip : opts.temp = true ∨ opts.overwrite = true ∨
        st.fs.isDirB (opts.output_path.getD (default_path ctx) ++ [root_dir_name ds]) = false) :
    (datasetDownload ctx ds opts st).2 = .error .invalidSourceSet ∧
    (datasetDownload ctx ds opts st).1.fetched = st.fetched := by
  by_cases hT : opts.temp = true
  · constructor <;> simp [datasetDownload, hT, hM]
  · have hT' : opts.temp = false := by rwa [Bool.not_eq_true] at hT
    by_cases hD : st.fs.isDirB
        (opts.output_path.getD (default_path ctx) ++ [root_dir_name ds]) = true
    · have hO : opts.overwrite = true := by
        rcases hNoSkip with h | h | h
        · exact absurd h (by simp [hT'])
        · exact h
        · exact absurd hD (by simp [h])
      constructor <;> simp [datasetDownload, hT', hD, hO, hM]
    · have hD' : st.fs.isDirB
          (opts.output_path.getD (default_path ctx) ++ [root_dir_name ds]) = false := by
        rwa [Bool.not_eq_true] at hD
      constructor <;> simp [datasetDownload, hT', hD', hM]

/-- Witness for `C3_amended_invalid_source_set_before_fetch`: a zero-main
source list on a fresh filesystem fails with `InvalidSourceSet` and no
fetch. -/
theorem C3_amended_witness :
    (datasetDownload ctxC dsNoMain optsAllow st0).2 = .error .invalidSourceSet ∧
    (datasetDownload ctxC dsNoMain optsAllow st0).1.fetched = st0.fetched :=
  C3_amended_invalid_source_set_before_fetch ctxC dsNoMain optsAllow st0 (by decide)
    (Or.inr (Or.inr rfl))

/-- **C4.** Acquisition is idempotent: for every dataset instance, context,
run options and state with `temp = false` and `overwrite = false`, if the
computed root directory already exists under the output path (or the default
location), the run is a no-op — the instance's `root_dir` is set to the
existing directory, the call returns it immediately, the filesystem is
untouched and the fetch log is unchanged (zero network fetches).  Since the
state is returned unchanged apart from `root_dir`, a second run with
identical inputs again returns the same `root_dir` with zero fetches. -/
theorem C4_existing_root_is_noop (ctx : Ctx) (ds : Dataset) (opts : DlOpts) (st : St)
    (hT : opts.temp = false) (hO : opts.overwrite = false)
    (hD : st.fs.isDirB (opts.output_path.getD (default_path ctx) ++ [root_dir_name ds]) = true) :
    datasetDownload ctx ds opts st =
      ({ st with root_dir := some (opts.output_path.getD (default_path ctx) ++ [root_dir_name ds]) },
        .ok (some (opts.output_path.getD (default_path ctx) ++ [root_dir_name ds]))) := by
  simp [datasetDownload, hT, hO, hD]

/-- Witness for `C4_existing_root_is_noop`: the root `/o/ds_x-v1-full`
already exists, so the run returns it without touching the filesystem or the
fetch log. -/
theorem C4_existing_root_is_noop_witness :
    datasetDownload ctxC dsMainFile optsAllow stDir =
      ({ stDir with root_dir := some ["o", "ds_x-v1-full"] },
        .ok (some ["o", "ds_x-v1-full"])) :=
  C4_existing_root_is_noop ctxC dsMainFile optsAllow stDir rfl rfl rfl

/-- **C5, counterexample.** The claim: digest comparison is case-insensitive,
so validating against an upper-cased expected digest succeeds.  The file
`/f` hashes to the digest byte `0xab`, rendered `"ab"`; validating it against
the (case-insensitively equal) expected digest `"AB"` returns `false`:
utilities.py line 144 compares hex strings with plain `==`. -/
theorem C5_uppercase_digest_rejected :
    validate_checksum ctxC fs5 ["f"] (some "AB") "md5" = .ok false ∧
    compute_checksum ctxC fs5 ["f"] "md5" = .ok "ab" ∧
    strLower "AB" = "ab" :=
  ⟨rfl, rfl, rfl⟩

/-- **C8, counterexample.** The claim: every filename ending in one of the
supported suffixes — `tar.bz2` among them — has its kind inferred.  The
table at utilities.py line 14 actually contains `".tar.bz"`, not
`".tar.bz2"`, and `"/a/x.tar.bz2"` matches no table entry (the `2` makes
every `endswith` test fail), so extraction with no explicit kind fails with
the unsupported-format `ValueError` even though the file is a well-formed
archive under `ctxC`. -/
theorem C8_tar_bz2_not_inferred :
    (extract_archive ctxC [(["a", "x.tar.bz2"], Node.file [1, 2, 3])] ["a", "x.tar.bz2"]
        (some ["a", "out"]) false none false).2 = .error .unsupportedFormat ∧
    strEndsWith (pathStr ["a", "x.tar.bz2"]) ".tar.bz2" = true ∧
    _infer_archive_type (pathStr ["a", "x.tar.bz2"]) = none :=
  ⟨rfl, rfl, rfl⟩

/-- **C5, amended.** Digest comparison is *exact* (case-sensitive) hex-string
equality: whenever `compute_checksum` yields the digest `d`,
`validate_checksum` accepts an expected value `c` iff `c` is exactly `some d`
— and since the computed digest is rendered in lower-case hex, an upper-cased
expected digest fails. -/
theorem C5_amended_validation_is_exact_equality
    (ctx : Ctx) (fs : FS) (p : FPath) (t : String) (c : Option String) (d : String)
    (h : compute_checksum ctx fs p t = .ok d) :
    validate_checksum ctx fs p c t = .ok true ↔ c = some d := by
  simp [validate_checksum, h]

/-- Witness for `C5_amended_validation_is_exact_equality`: the exact
lower-case digest `"ab"` validates. -/
theorem C5_amended_witness :
    validate_checksum ctxC fs5 ["f"] (some "ab") "md5" = .ok true :=
  (C5_amended_validation_is_exact_equality ctxC fs5 ["f"] "md5" (some "ab") "ab" rfl).mpr rfl

/-- **C8, amended.** Kind inference against the table actually hard-coded at
utilities.py line 14: with no explicit kind, extraction fails with the
unsupported-format `ValueError` exactly when the archive path's rendered
string ends with *none* of `.zip`, `.tar`, `.tar.gz`, `.tgz`, `.tar.xz`,
`.txz`, `.tbz`, `.tar.bz`, `.xz`, `.gz` — so `.tar.bz2` names are rejected
(only `.tbz`/`.tar.bz` spellings of bzip2 tars are accepted), and every
filename matching one of the table suffixes is dispatched to a real
extraction branch. -/
theorem C8_amended_inference_matches_hardcoded_table :
    (∀ (ctx : Ctx) (fs : FS) (ap : FPath) (out : Option FPath) (mr cl : Bool),
        (extract_archive ctx fs ap out mr none cl).2 = .error .unsupportedFormat ↔
          _infer_archive_type (pathStr ap) = none) ∧
    (∀ s : String, _infer_archive_type s = none ↔
        (strEndsWith s ".zip" = false ∧ strEndsWith s ".tar" = false ∧
         strEndsWith s ".tar.gz" = false ∧ strEndsWith s ".tgz" = false ∧
         strEndsWith s ".tar.xz" = false ∧ strEndsWith s ".txz" = false ∧
         strEndsWith s ".tbz" = false ∧ strEndsWith s ".tar.bz" = false ∧
         strEndsWith s ".xz" = false ∧ strEndsWith s ".gz" = false)) := by
  constructor
  · intro ctx fs ap out mr cl
    cases hk : _infer_archive_type (pathStr ap) with
    | none => simp [extract_archive, extractDecompress, hk]
    | some ke =>
      have hmem := List.mem_of_find?_eq_some hk
      have hd := extractDecompress_no_unsupported ctx fs ap
        (out.getD (ap.dropLast ++ [pyStem (lastName ap)])) ke hmem
      refine iff_of_false ?_ (by simp)
      simp only [extract_archive, hk]
      rcases h1 : extractDecompress ctx fs ap
          (out.getD (ap.dropLast ++ [pyStem (lastName ap)])) (some ke) with ⟨fs1, r1⟩
      rw [h1] at hd
      cases r1 with
      | error e => simpa [h1] using hd
      | ok u =>
        simp only [h1]
        rcases h2 : extractCleanup fs1 ap cl with ⟨fs2, r2⟩
        have hd2 := extractCleanup_no_unsupported fs1 ap cl
        rw [h2] at hd2
        cases r2 with
        | error e => simpa [h2] using hd2
        | ok v =>
          simp only [h2]
          rcases h3 : extractFlatten fs2 (out.getD (ap.dropLast ++ [pyStem (lastName ap)])) mr
            with ⟨fs3, r3⟩
          have hd3 := extractFlatten_no_unsupported fs2
            (out.getD (ap.dropLast ++ [pyStem (lastName ap)])) mr
          rw [h3] at hd3
          cases r3 with
          | error e => simpa [h3] using hd3
          | ok w => simp [h3]
  · intro s
    simp [_infer_archive_type, _SUPPORTED_ARCHIVES, List.find?_eq_none]

/-- **C9, counterexample.** The claim: calling `computeIndex` before
acquisition fails with a `PreconditionError` *before the dataset-specific
builder is invoked*.  base.py line 116 invokes `_compute_index_internal`
unconditionally before touching `_root_dir`, so with `root_dir` unset the
builder has already run (the event trace records `builderCall`) when the
`TypeError` from `None / "index.json"` is raised; no index artifact is
written. -/
theorem C9_builder_runs_before_failure :
    compute_index [] none [1] = ([Ev.builderCall], .error .typeError) :=
  rfl

/-- **C9, amended.** With `root_dir` unset, `compute_index` always fails (a
`TypeError` when composing the index path, not a dedicated precondition
check), but only *after* invoking the dataset-specific builder; no index
artifact is written (the error carries no filesystem, and the event trace
contains no write event). -/
theorem C9_amended_unset_root_fails_after_builder (fs : FS) (b : Bytes) :
    compute_index fs none b = ([Ev.builderCall], .error .typeError) :=
  rfl

/-- **C10.** Implicit consequence of comparing the computed digest against a
missing expected value: every call to `download` with
`allow_invalid_checksum = false` and `checksum = None` fails with the
checksum-mismatch `RuntimeError`, both on the existing-file short-circuit
path and after a fresh successful transfer — the computed hex digest can
never equal `None`.  Hypotheses: a valid checksum algorithm name, a
successful transfer when one is attempted, and (for the short-circuit path)
the pre-existing target not being a directory. -/
theorem C10_missing_checksum_always_fails
    (ctx : Ctx) (st : St) (a : DlArgs)
    (hA : a.allow_invalid_checksum = false) (hC : a.checksum = none)
    (hT : a.checksum_type = "sha256" ∨ a.checksum_type = "md5")
    (c : Bytes) (hH : ctx.http a.url = some c)
    (hnd : ∀ p, a.output_file_path = some p → a.temp = false → a.force_overwrite = false →
        st.fs.find p ≠ some Node.dir) :
    (download ctx st a).2 = .error .checksumMismatch := by
  by_cases ht : a.temp = true
  · simp only [download, ht, if_true, dlTempFetch]
    exact dlTransfer_missing_checksum ctx a _ _ hA hC hT c hH
  · have ht' : a.temp = false := by rwa [Bool.not_eq_true] at ht
    rcases hop : a.output_file_path with - | p
    · simp only [download, ht', Bool.false_eq_true, if_false, hop, dlTempFetch]
      exact dlTransfer_missing_checksum ctx a _ _ hA hC hT c hH
    · by_cases he : st.fs.existsP p = true
      · by_cases hf : a.force_overwrite = true
        · simp only [download, ht', Bool.false_eq_true, if_false, hop, he, if_true,
            hf, dlOpenAndFetch]
          exact dlTransfer_missing_checksum ctx a _ _ hA hC hT c hH
        · have hf' : a.force_overwrite = false := by rwa [Bool.not_eq_true] at hf
          have hd := hnd p hop ht' hf'
          rcases hfind : st.fs.find p with - | n
          · exact absurd (by simp [FS.existsP, hfind]) (by simp [he] : ¬st.fs.existsP p = false)
          · cases n with
            | dir => exact absurd hfind hd
            | file cc =>
              rcases hT with h | h <;>
                simp [download, ht', hop, he, hf', hA, hC, validate_checksum,
                  compute_checksum, h, hfind]
      · have he' : st.fs.existsP p = false := by rwa [Bool.not_eq_true] at he
        simp only [download, ht', Bool.false_eq_true, if_false, hop, he',
          dlOpenAndFetch]
        exact dlTransfer_missing_checksum ctx a _ _ hA hC hT c hH

/-- Witness for `C10_missing_checksum_always_fails`: a fresh fetch of the
live URL `"u"` with no expected checksum fails with the mismatch error. -/
theorem C10_missing_checksum_always_fails_witness :
    (download ctxC st0
      { url := "u", output_file_path := some ["w"], temp := false, force_overwrite := false,
        checksum := none, checksum_type := "sha256", allow_invalid_checksum := false }).2
      = .error .checksumMismatch :=
  C10_missing_checksum_always_fails ctxC st0 _ rfl rfl (Or.inl rfl) [1, 2, 3] rfl
    (fun p hp _ _ => by cases hp; simp [st0, FS.find])

end ResolvData
